import Mathlib

/-!
Verification of the reseller key-generation page
(`client/src/pages/reseller/generate.tsx`) of the license-key system.

The page is embedded shallowly: the tier table, the zod form schema, the
mutation that builds the generation payload, and the pure expressions that
drive the cost alert, the submit button and the generated-key display are
translated into Lean functions.  JavaScript numbers appearing here are
integers (`ℤ`) or exact rationals (`ℚ`); `parseInt` is modelled as a
partial function returning `Option ℤ` with `none` standing for `NaN`.
-/

namespace GeneratePage

/-- The fixed day/credit pricing tier list, `DAY_CREDIT_TIERS` in the
source: pairs of (days, credit cost).  The labels are display-only and
omitted. -/
def DAY_CREDIT_TIERS : List (ℤ × ℚ) :=
  [(5, 1/2), (10, 1), (20, 2), (30, 3), (60, 6)]

/-- `DAY_CREDIT_TIERS.find(t => t.days === selectedDays)`: first tier whose
day count equals `d`. -/
def findTier (d : ℤ) : Option (ℤ × ℚ) :=
  DAY_CREDIT_TIERS.find? (fun t => decide (t.1 = d))

/-- The credit cost of the tier for `d` days, when `d` is in the tier
table. -/
def tierCost (d : ℤ) : Option ℚ :=
  (findTier d).map Prod.snd

/-- Drop the leading spaces of a character list (the leading-whitespace
skipping done by JavaScript `parseInt`; only the plain space character is
modelled). -/
def skipSpaces : List Char → List Char
  | [] => []
  | c :: cs => if c = ' ' then skipSpaces cs else c :: cs

/-- Accumulate the value of the maximal leading run of decimal digits;
`none` when that run is empty (`NaN`). -/
def digitsPrefixVal : List Char → Option ℕ → Option ℕ
  | [], acc => acc
  | c :: cs, acc =>
    if c.isDigit then
      digitsPrefixVal cs (some ((acc.getD 0) * 10 + (c.toNat - 48)))
    else acc

/-- JavaScript `parseInt(s)` in base 10: skip leading whitespace, read an
optional sign, then the maximal run of decimal digits; `none` models
`NaN` (no digits).  Hexadecimal prefixes are not modelled: the page only
parses decimal field values. -/
def parseIntJs (s : String) : Option ℤ :=
  match skipSpaces s.toList with
  | '-' :: rest => (digitsPrefixVal rest none).map (fun n => -(n : ℤ))
  | '+' :: rest => (digitsPrefixVal rest none).map (fun n => (n : ℤ))
  | cs => (digitsPrefixVal cs none).map (fun n => (n : ℤ))

/-- The form values, `GenerateKeyValues` in the source.  `game`,
`deviceLimit` and `dayTier` are select/input strings; `keyCount` is the
already-parsed number field; `customKey` defaults to the empty string. -/
structure GenerateKeyValues where
  game : String
  deviceLimit : String
  dayTier : String
  keyCount : ℤ
  customKey : String
deriving DecidableEq, Repr

/-- The zod schema `generateKeySchema`: non-empty `game`, `deviceLimit`
and `dayTier` strings and `keyCount ≥ 1`; `customKey` is unconstrained. -/
def generateKeySchema (v : GenerateKeyValues) : Bool :=
  decide (1 ≤ v.game.length) &&
  decide (1 ≤ v.deviceLimit.length) &&
  decide (1 ≤ v.dayTier.length) &&
  decide ((1 : ℤ) ≤ v.keyCount)

/-- The JSON payload of `POST /api/reseller/keys/generate` built by the
mutation.  `deviceLimit` keeps the `parseInt` result (`none` = `NaN`). -/
structure Payload where
  game : String
  deviceLimit : Option ℤ
  days : ℤ
  keyString : Option String
  count : ℤ
  resellerId : ℤ
deriving DecidableEq, Repr

/-- The body of `generateKeyMutation.mutationFn` up to the point where the
generate request is issued: parse the device limit, parse the day tier and
look it up in `DAY_CREDIT_TIERS`, and throw (`none`) when no tier matches
— before the session request and the generate request are sent.  On
success (`some`), the returned payload is exactly the object posted to the
generate endpoint, with `keyString := values.customKey || undefined`
(the empty string becomes `undefined`) and `resellerId` taken from the
session. -/
def generateKeyMutation (values : GenerateKeyValues) (resellerId : ℤ) :
    Option Payload :=
  let deviceLimit := parseIntJs values.deviceLimit
  let selectedDays := parseIntJs values.dayTier
  let tier :=
    match selectedDays with
    | none => none
    | some d => findTier d
  match tier with
  | none => none
  | some t =>
    some { game := values.game
           deviceLimit := deviceLimit
           days := t.1
           keyString :=
             if values.customKey = "" then none else some values.customKey
           count := values.keyCount
           resellerId := resellerId }

/-- `parseInt(form.watch("dayTier") || "30")`: the empty day-tier field
falls back to `"30"` before parsing. -/
def selectedDays (dayTier : String) : Option ℤ :=
  parseIntJs (if dayTier = "" then "30" else dayTier)

/-- The tier found for the current day-tier field value in the cost
alert / submit button expressions (`undefined` when the parsed value is
`NaN` or not in the table). -/
def tierOfField (dayTier : String) : Option (ℤ × ℚ) :=
  match selectedDays dayTier with
  | none => none
  | some d => findTier d

/-- `const totalCredits = (tier?.credits || 0) * form.watch("keyCount")`:
the total credit cost shown in the alert and used by the pre-check. -/
def totalCredits (dayTier : String) (keyCount : ℤ) : ℚ :=
  (((tierOfField dayTier).map Prod.snd).getD 0) * (keyCount : ℚ)

/-- The submit button `disabled` prop: pending mutation, or
`(profile?.credits || 0) < totalCredits`.  `credits` is the value of
`profile?.credits || 0`. -/
def submitButtonDisabled (isPending : Bool) (credits : ℚ)
    (dayTier : String) (keyCount : ℤ) : Bool :=
  isPending || decide (credits < totalCredits dayTier keyCount)

/-- The `AlertTitle` text of the cost alert. -/
def alertTitle (credits : ℚ) (dayTier : String) (keyCount : ℤ) : String :=
  if credits < totalCredits dayTier keyCount then
    "Insufficient Credits!"
  else
    "Cost Information"

/-- The values of the device-limit `SelectItem`s — the only options the
device-limit select offers. -/
def deviceLimitOptions : List String := ["1", "2", "100"]

/-- The values of the game `SelectItem`s — the only options the game
select offers, and the only way the form's `game` field is set. -/
def gameOptions : List String :=
  ["PUBG MOBILE", "LAST ISLAND OF SURVIVAL", "FREE FIRE"]

/-- The spec's three-game enumeration. -/
inductive SpecGame
  | PUBG_MOBILE
  | LIOS
  | FREE_FIRE
deriving DecidableEq, Repr

/-- The correspondence between the page's game strings and the spec's
enumeration; `none` for a string outside the enumeration. -/
def specGameOf (s : String) : Option SpecGame :=
  if s = "PUBG MOBILE" then some SpecGame.PUBG_MOBILE
  else if s = "LAST ISLAND OF SURVIVAL" then some SpecGame.LIOS
  else if s = "FREE FIRE" then some SpecGame.FREE_FIRE
  else none

/-- A key record of a successful generate response
(`{keyString, expiryAt}` per the interface contract); only `keyString` is
read by the page. -/
structure KeyRecord where
  keyString : String
  expiryAt : ℤ
deriving DecidableEq, Repr

/-- The `onSuccess` handler's state update: when the response's key list
is non-empty, `setGeneratedKeys(data.keys.map(key => key.keyString))`;
otherwise the previous state is kept. -/
def onSuccessUpdate (prev : List String) (keys : List KeyRecord) :
    List String :=
  if 0 < keys.length then keys.map KeyRecord.keyString else prev

/-- The success toast description shown by `onSuccess` when the key list
is non-empty. -/
def successToast (keys : List KeyRecord) : Option String :=
  if 0 < keys.length then
    some ("Generated " ++ toString keys.length ++ " key(s) successfully")
  else none

/-- The list of key strings rendered as code blocks: the
`generatedKeys.length > 0 && ...` block maps over `generatedKeys` in
order. -/
def renderedKeys (generatedKeys : List String) : List String :=
  if 0 < generatedKeys.length then generatedKeys else []

/-- Modelled from the spec: the server-side key-creation step of
`generate` (§4.3 step 4) — the server code is not part of the sources,
only this page calls it.  "Create `count` Key records: the first uses
`optionalCustomKeyString` if supplied …; remaining keys get generated
unique strings."  `genString i` stands for the unique string generated
for batch slot `i`. -/
def batchKeyStrings (genString : ℕ → String) (customKey : Option String)
    (count : ℕ) : List String :=
  (List.range count).map fun i =>
    match customKey with
    | some s => if i = 0 then s else genString i
    | none => genString i

end GeneratePage

namespace GeneratePage

/-- Helper: when the day-tier field parses to a day value `d` whose tier
cost is `c`, the displayed total is `c * keyCount`. -/
theorem totalCredits_of_tier (dt : String) (d : ℤ) (c : ℚ) (n : ℤ)
    (hd : selectedDays dt = some d) (hc : tierCost d = some c) :
    totalCredits dt n = c * (n : ℚ) := by
  cases ht : findTier d with
  | none => simp [tierCost, ht] at hc
  | some t =>
    have hsnd : t.2 = c := by simpa [tierCost, ht] using hc
    simp [totalCredits, tierOfField, hd, ht, hsnd]

/-- Helper: the mutation throws before issuing any request when the
day-tier field does not parse to a day value present in the tier table. -/
theorem mutation_none_of_no_tier (v : GenerateKeyValues) (r : ℤ)
    (h : ∀ d, parseIntJs v.dayTier = some d → findTier d = none) :
    generateKeyMutation v r = none := by
  rw [generateKeyMutation]
  split
  · rfl
  · rename_i t heq
    cases hpd : parseIntJs v.dayTier with
    | none => rw [hpd] at heq; simp at heq
    | some d =>
      rw [hpd] at heq
      have hft : findTier d = some t := heq
      rw [h d hpd] at hft
      simp at hft

/-- Helper: every game string offered by the game select belongs to the
spec's enumeration. -/
theorem specGameOf_isSome_of_mem (s : String) (hs : s ∈ gameOptions) :
    (specGameOf s).isSome = true := by
  simp only [gameOptions, List.mem_cons, List.not_mem_nil, or_false] at hs
  rcases hs with h | h | h <;> subst h <;> decide

/-- C1: the tier table maps exactly the five day values 5, 10, 20, 30, 60
to the costs 0.5, 1, 2, 3, 6, and no other day value has a tier. -/
theorem tierCost_exact (d : ℤ) (c : ℚ) :
    tierCost d = some c ↔
      (d = 5 ∧ c = 1/2) ∨ (d = 10 ∧ c = 1) ∨ (d = 20 ∧ c = 2) ∨
      (d = 30 ∧ c = 3) ∨ (d = 60 ∧ c = 6) := by
  by_cases h5 : d = 5 <;> by_cases h10 : d = 10 <;>
    by_cases h20 : d = 20 <;> by_cases h30 : d = 30 <;>
    by_cases h60 : d = 60 <;>
  simp_all [tierCost, findTier, DAY_CREDIT_TIERS, List.find?, beq_iff_eq,
    eq_comm]

/-- C2: whenever the day-tier field selects a day value `d` present in
the tier table, the total credit cost computed and displayed for the
generation request is `tierCost d * keyCount`. -/
theorem displayedTotal_eq_tierCost_mul (dt : String) (d : ℤ) (c : ℚ)
    (n : ℤ) (hd : selectedDays dt = some d) (hc : tierCost d = some c) :
    totalCredits dt n = c * (n : ℚ) :=
  totalCredits_of_tier dt d c n hd hc

/-- Witness for C2: 3 keys at the 30-day tier (cost 3 each) display a
total of 9 credits. -/
theorem displayedTotal_eq_tierCost_mul_witness :
    selectedDays "30" = some 30 ∧ tierCost 30 = some 3 ∧
    totalCredits "30" 3 = 9 := by
  refine ⟨by decide, by decide, ?_⟩
  have h := displayedTotal_eq_tierCost_mul "30" 30 3 3 (by decide) (by decide)
  rw [h]; norm_num

/-- C3: when the available credits are strictly below
`tierCost(selected days) * keyCount`, the submit button is disabled
(whatever the pending flag) and the alert shows the insufficient-credits
warning, so no generation request can be submitted from that state; the
server-side debit check (outside this page) remains authoritative. -/
theorem insufficient_precheck_blocks (p : Bool) (credits : ℚ)
    (dt : String) (d : ℤ) (c : ℚ) (n : ℤ)
    (hd : selectedDays dt = some d) (hc : tierCost d = some c)
    (h : credits < c * (n : ℚ)) :
    submitButtonDisabled p credits dt n = true ∧
    alertTitle credits dt n = "Insufficient Credits!" := by
  have ht := totalCredits_of_tier dt d c n hd hc
  constructor
  · simp [submitButtonDisabled, ht, h]
  · simp [alertTitle, ht, h]

/-- Witness for C3: 8 credits against 3 keys at the 30-day tier (total 9)
disable the button and show the warning. -/
theorem insufficient_precheck_blocks_witness :
    (8 : ℚ) < 3 * ((3 : ℤ) : ℚ) ∧
    submitButtonDisabled false 8 "30" 3 = true ∧
    alertTitle 8 "30" 3 = "Insufficient Credits!" := by
  have h : (8 : ℚ) < 3 * ((3 : ℤ) : ℚ) := by norm_num
  exact ⟨h,
    (insufficient_precheck_blocks false 8 "30" 30 3 3 (by decide)
      (by decide) h).1,
    (insufficient_precheck_blocks false 8 "30" 30 3 3 (by decide)
      (by decide) h).2⟩

/-- C4: the zod schema only accepts forms with `keyCount ≥ 1`, and the
mutation throws on a day value absent from the tier table before issuing
any request — no payload reaches the generate endpoint. -/
theorem validation_rejects_before_request :
    (∀ v : GenerateKeyValues,
      generateKeySchema v = true → 1 ≤ v.keyCount) ∧
    (∀ (v : GenerateKeyValues) (r : ℤ),
      (∀ d, parseIntJs v.dayTier = some d → findTier d = none) →
      generateKeyMutation v r = none) := by
  constructor
  · intro v hv
    simp only [generateKeySchema, Bool.and_eq_true, decide_eq_true_eq] at hv
    exact hv.2
  · intro v r h
    exact mutation_none_of_no_tier v r h

/-- Witness for C4: a valid form has `keyCount ≥ 1`; a day-tier field of
`"7"` (not a tier) makes the mutation throw without a request. -/
theorem validation_rejects_before_request_witness :
    generateKeySchema ⟨"PUBG MOBILE", "1", "30", 1, ""⟩ = true ∧
    (1 : ℤ) ≤
      (GenerateKeyValues.mk "PUBG MOBILE" "1" "30" 1 "").keyCount ∧
    generateKeyMutation ⟨"PUBG MOBILE", "1", "7", 1, ""⟩ 5 = none := by
  refine ⟨by decide, validation_rejects_before_request.1 _ (by decide),
    validation_rejects_before_request.2 _ 5 ?_⟩
  intro d hd
  have hd7 : parseIntJs "7" = some d := hd
  have h7 : parseIntJs "7" = some 7 := by decide
  rw [h7] at hd7
  injection hd7 with h
  rw [← h]
  decide

/-- C5: in a batch of more than one key generated with a custom key
string, the custom string is used only for the first key; every remaining
slot `i` receives the generated unique string for that slot. -/
theorem batch_custom_first_only (gen : ℕ → String) (s : String) (n : ℕ)
    (hn : 0 < n) :
    (batchKeyStrings gen (some s) n)[0]? = some s ∧
    ∀ i, 0 < i → i < n →
      (batchKeyStrings gen (some s) n)[i]? = some (gen i) := by
  constructor
  · simp [batchKeyStrings, List.getElem?_map, List.getElem?_range, hn]
  · intro i h0 hi
    have hne : i ≠ 0 := Nat.pos_iff_ne_zero.mp h0
    simp [batchKeyStrings, List.getElem?_map, List.getElem?_range, hi, hne]

/-- Witness for C5: a batch of 2 with custom string `"CUSTOM"` puts the
custom string first and the generated string in slot 1. -/
theorem batch_custom_first_only_witness :
    0 < 2 ∧
    (batchKeyStrings (fun i => toString i) (some "CUSTOM") 2)[0]? =
      some "CUSTOM" ∧
    (batchKeyStrings (fun i => toString i) (some "CUSTOM") 2)[1]? =
      some (toString 1) :=
  ⟨by decide,
   (batch_custom_first_only (fun i => toString i) "CUSTOM" 2 (by decide)).1,
   (batch_custom_first_only (fun i => toString i) "CUSTOM" 2
      (by decide)).2 1 (by decide) (by decide)⟩

/-- C6: the game select's options are exactly the strings that map into
the spec's three-game enumeration, and every payload submitted with a
selectable game carries a game in that enumeration. -/
theorem game_in_spec_enumeration :
    (∀ s, s ∈ gameOptions ↔ (specGameOf s).isSome = true) ∧
    (∀ (v : GenerateKeyValues) (r : ℤ) (p : Payload),
      v.game ∈ gameOptions → generateKeyMutation v r = some p →
      (specGameOf p.game).isSome = true) := by
  constructor
  · intro s
    constructor
    · exact specGameOf_isSome_of_mem s
    · intro hs
      rw [specGameOf] at hs
      split_ifs at hs with h1 h2 h3
      · subst h1; decide
      · subst h2; decide
      · subst h3; decide
      · simp at hs
  · intro v r p hg hp
    have hgame : p.game = v.game := by
      rw [generateKeyMutation] at hp
      split at hp
      · exact Option.noConfusion hp
      · injection hp with h
        rw [← h]
    rw [hgame]
    exact specGameOf_isSome_of_mem v.game hg

/-- Witness for C6: a payload generated with `"PUBG MOBILE"` carries a
game of the spec's enumeration. -/
theorem game_in_spec_enumeration_witness :
    ("PUBG MOBILE" : String) ∈ gameOptions ∧
    (specGameOf "PUBG MOBILE").isSome = true ∧
    generateKeyMutation ⟨"PUBG MOBILE", "1", "30", 1, ""⟩ 5 =
      some ⟨"PUBG MOBILE", some 1, 30, none, 1, 5⟩ ∧
    (specGameOf
      (Payload.mk "PUBG MOBILE" (some 1) 30 none 1 5).game).isSome =
        true :=
  ⟨by decide,
   (game_in_spec_enumeration.1 "PUBG MOBILE").mp (by decide),
   by decide,
   game_in_spec_enumeration.2 ⟨"PUBG MOBILE", "1", "30", 1, ""⟩ 5
     ⟨"PUBG MOBILE", some 1, 30, none, 1, 5⟩ (by decide) (by decide)⟩

/-- C7: on a successful response with a non-empty key list, the page
displays exactly the `keyString` of each returned record, in the
server's order (also pointwise, position by position), and the success
toast reports the returned count. -/
theorem success_display (prev : List String) (keys : List KeyRecord)
    (h : keys ≠ []) :
    renderedKeys (onSuccessUpdate prev keys) =
      keys.map KeyRecord.keyString ∧
    (∀ i : ℕ, (renderedKeys (onSuccessUpdate prev keys))[i]? =
      (keys[i]?).map KeyRecord.keyString) ∧
    successToast keys =
      some ("Generated " ++ toString keys.length ++
        " key(s) successfully") := by
  have hl : 0 < keys.length := List.length_pos.mpr h
  have h2 : renderedKeys (onSuccessUpdate prev keys) =
      keys.map KeyRecord.keyString := by
    rw [onSuccessUpdate, if_pos hl, renderedKeys]
    simp [hl]
  refine ⟨h2, ?_, ?_⟩
  · intro i
    rw [h2, List.getElem?_map]
  · rw [successToast, if_pos hl]

/-- Witness for C7: a two-key response displays both key strings in
order and reports a count of 2. -/
theorem success_display_witness :
    ([⟨"AAA", 1⟩, ⟨"BBB", 2⟩] : List KeyRecord) ≠ [] ∧
    renderedKeys (onSuccessUpdate ["old"] [⟨"AAA", 1⟩, ⟨"BBB", 2⟩]) =
      ["AAA", "BBB"] ∧
    successToast [⟨"AAA", 1⟩, ⟨"BBB", 2⟩] =
      some "Generated 2 key(s) successfully" := by
  have h := success_display ["old"] [⟨"AAA", 1⟩, ⟨"BBB", 2⟩] (by decide)
  refine ⟨by decide, ?_, ?_⟩
  · rw [h.1]; decide
  · rw [h.2.2]; decide

/-- C8: every payload built from a device-limit field offered by the
select (`"1"`, `"2"`, `"100"`) carries a device limit of 1, 2 or 100, so
`deviceLimit ≥ 1` always holds for payloads of this page. -/
theorem deviceLimit_always_valid (v : GenerateKeyValues) (r : ℤ)
    (p : Payload) (hopt : v.deviceLimit ∈ deviceLimitOptions)
    (hp : generateKeyMutation v r = some p) :
    (p.deviceLimit = some 1 ∨ p.deviceLimit = some 2 ∨
      p.deviceLimit = some 100) ∧
    ∃ k, p.deviceLimit = some k ∧ 1 ≤ k := by
  have hdl : p.deviceLimit = parseIntJs v.deviceLimit := by
    rw [generateKeyMutation] at hp
    split at hp
    · exact Option.noConfusion hp
    · injection hp with h
      rw [← h]
  simp only [deviceLimitOptions, List.mem_cons, List.not_mem_nil,
    or_false] at hopt
  rcases hopt with h | h | h <;> rw [h] at hdl
  · have h1 : p.deviceLimit = some 1 := by rw [hdl]; decide
    exact ⟨Or.inl h1, 1, h1, by decide⟩
  · have h2 : p.deviceLimit = some 2 := by rw [hdl]; decide
    exact ⟨Or.inr (Or.inl h2), 2, h2, by decide⟩
  · have h100 : p.deviceLimit = some 100 := by rw [hdl]; decide
    exact ⟨Or.inr (Or.inr h100), 100, h100, by decide⟩

/-- Witness for C8: the `"2"` option yields a payload with device limit
2, which is at least 1. -/
theorem deviceLimit_always_valid_witness :
    ("2" : String) ∈ deviceLimitOptions ∧
    generateKeyMutation ⟨"PUBG MOBILE", "2", "30", 1, ""⟩ 5 =
      some ⟨"PUBG MOBILE", some 2, 30, none, 1, 5⟩ ∧
    ((Payload.mk "PUBG MOBILE" (some 2) 30 none 1 5).deviceLimit =
        some 1 ∨
      (Payload.mk "PUBG MOBILE" (some 2) 30 none 1 5).deviceLimit =
        some 2 ∨
      (Payload.mk "PUBG MOBILE" (some 2) 30 none 1 5).deviceLimit =
        some 100) := by
  have h := deviceLimit_always_valid ⟨"PUBG MOBILE", "2", "30", 1, ""⟩ 5
    ⟨"PUBG MOBILE", some 2, 30, none, 1, 5⟩ (by decide) (by decide)
  exact ⟨by decide, by decide, h.1⟩

/-- C9: an empty custom-key field yields a payload with `keyString`
omitted (`none`), so all keys are server-generated; a non-empty custom
key is forwarded verbatim. -/
theorem customKey_payload (v : GenerateKeyValues) (r : ℤ) (p : Payload)
    (hp : generateKeyMutation v r = some p) :
    (v.customKey = "" → p.keyString = none) ∧
    (v.customKey ≠ "" → p.keyString = some v.customKey) := by
  have hks : p.keyString =
      if v.customKey = "" then none else some v.customKey := by
    rw [generateKeyMutation] at hp
    split at hp
    · exact Option.noConfusion hp
    · injection hp with h
      rw [← h]
  constructor
  · intro h; rw [hks, if_pos h]
  · intro h; rw [hks, if_neg h]

/-- Witness for C9: an empty custom key gives `keyString = none`; the
custom key `"MYKEY"` is forwarded as is. -/
theorem customKey_payload_witness :
    generateKeyMutation ⟨"PUBG MOBILE", "1", "30", 1, ""⟩ 5 =
      some ⟨"PUBG MOBILE", some 1, 30, none, 1, 5⟩ ∧
    (Payload.mk "PUBG MOBILE" (some 1) 30 none 1 5).keyString = none ∧
    generateKeyMutation ⟨"PUBG MOBILE", "1", "30", 1, "MYKEY"⟩ 5 =
      some ⟨"PUBG MOBILE", some 1, 30, some "MYKEY", 1, 5⟩ ∧
    (Payload.mk "PUBG MOBILE" (some 1) 30 (some "MYKEY") 1
      5).keyString = some "MYKEY" :=
  ⟨by decide,
   (customKey_payload ⟨"PUBG MOBILE", "1", "30", 1, ""⟩ 5
      ⟨"PUBG MOBILE", some 1, 30, none, 1, 5⟩ (by decide)).1 (by decide),
   by decide,
   (customKey_payload ⟨"PUBG MOBILE", "1", "30", 1, "MYKEY"⟩ 5
      ⟨"PUBG MOBILE", some 1, 30, some "MYKEY", 1, 5⟩ (by decide)).2
     (by decide)⟩

/-- C10: a non-empty day-tier field that parses to a day value absent
from the tier table makes the displayed total 0, so with a non-negative
balance the pre-check never disables submission; the mutation instead
throws at the tier lookup before any generate request; only the empty
field falls back to the 30-day tier for display. -/
theorem invalidTier_not_disabling (dt : String) (d : ℤ) (n : ℤ)
    (credits : ℚ) (v : GenerateKeyValues) (r : ℤ)
    (hne : dt ≠ "") (hpd : parseIntJs dt = some d)
    (hd : findTier d = none) (hv : v.dayTier = dt)
    (hcred : 0 ≤ credits) :
    totalCredits dt n = 0 ∧
    submitButtonDisabled false credits dt n = false ∧
    generateKeyMutation v r = none ∧
    selectedDays "" = some 30 := by
  have hsel : selectedDays dt = some d := by
    rw [selectedDays, if_neg hne]; exact hpd
  have h0 : totalCredits dt n = 0 := by
    simp [totalCredits, tierOfField, hsel, hd]
  have hnl : ¬ credits < 0 := not_lt.mpr hcred
  refine ⟨h0, ?_, ?_, by decide⟩
  · simp [submitButtonDisabled, h0, hnl]
  · refine mutation_none_of_no_tier v r (fun d' hd' => ?_)
    rw [hv] at hd'
    rw [hpd] at hd'
    injection hd' with h
    rw [← h]
    exact hd

/-- Witness for C10: the field value `"7"` parses to 7, has no tier,
displays a total of 0, leaves the button enabled at balance 0, and makes
the mutation throw. -/
theorem invalidTier_not_disabling_witness :
    ("7" : String) ≠ "" ∧ parseIntJs "7" = some 7 ∧
    findTier 7 = none ∧ (0 : ℚ) ≤ 0 ∧
    totalCredits "7" 4 = 0 ∧
    submitButtonDisabled false 0 "7" 4 = false ∧
    generateKeyMutation ⟨"PUBG MOBILE", "1", "7", 1, ""⟩ 0 = none ∧
    selectedDays "" = some 30 := by
  have h := invalidTier_not_disabling "7" 7 4 0
    ⟨"PUBG MOBILE", "1", "7", 1, ""⟩ 0 (by decide) (by decide)
    (by decide) rfl (le_refl 0)
  exact ⟨by decide, by decide, by decide, le_refl 0, h.1, h.2.1,
    h.2.2.1, h.2.2.2⟩

end GeneratePage
